import Mathlib

/-!
# The DNNLOWP Python binding (`caffe2/quantization/server/pybind.cc`)

A shallow embedding of the functions the module `dnnlowp_pybind11` registers, and the
properties of them that the specification states.

The binding is glue: it reads the current workspace, builds observers and histograms,
sets a threshold on the default `QuantizationFactory` and hands the request to it.  The
embedding therefore threads one explicit process state through every function, and takes
the members of other translation units whose bodies the binding only calls
(`Observable::AttachObserver`, the factory's two `ChooseQuantizationParams` overloads,
`AddGlobalNetObserverCreator`) as function parameters.

The runtime's own types (`Workspace`, `Blob`, `Tensor`, `NetBase`) are declared outside
this file as well; each is modelled by what the binding asks of it: a lookup by name, a
test of the kind of blob, the element type and the elements of a tensor, the observers of
a net.

Floating-point values are only stored, passed on and returned by the binding, never
computed with, so their carrier is a type parameter `F`; the literals `1.0` and `0.99`
of the source are the literals of `F`.
-/

set_option autoImplicit false

namespace DnnlowpPybind

/-! ## Data model -/

/-- Modelled from the spec: the enumeration `dnnlowp::QuantizationFactory::QuantizationKind`
is declared in a header outside this file; the spec lists it as the closed variant
`MinMax | L2Exact | L2Approx | KLDivergence | Percentile | L1`.  The constructors carry the
enumerator names the binding uses (lines 212-222). -/
inductive QuantizationKind where
  | MIN_MAX_QUANTIZATION
  | L2_MIN_QUANTIZATION
  | L2_MIN_QUANTIZATION_APPROX
  | KL_MIN_QUANTIZATION
  | P99_QUANTIZATION
  | L1_MIN_QUANTIZATION
  deriving DecidableEq, Repr

/-- Modelled from the spec: the class `dnnlowp::Histogram` is declared outside this file;
the spec gives it as a range and an ordered sequence of bin counts, which are the three
arguments of the constructor call of line 209 (`float`, `float`,
`std::vector<uint64_t>`). -/
structure Histogram (F : Type) where
  min : F
  max : F
  bins : List Nat
  deriving DecidableEq, Repr

/-- Modelled from the spec: the record `dnnlowp::TensorQuantizationParams` is declared
outside this file; the spec gives it as scale, zero point and bit width. -/
structure TensorQuantizationParams (F : Type) where
  scale : F
  zero_point : Int
  precision : Int
  deriving DecidableEq, Repr

/-- Modelled from the spec: the process-wide `QuantizationFactory` is declared outside this
file; the spec describes it as a configuration holder with a selected strategy and one
percentile threshold for weights and one for activations. -/
structure QuantizationFactory (F : Type) where
  selected_strategy : QuantizationKind
  weight_p99_threshold : F
  activation_p99_threshold : F
  deriving DecidableEq, Repr

/-- Modelled from the spec: `QuantizationFactory::SetWeightP99Threshold` is defined outside
this file; per the spec the thresholds are mutable factory-level configuration set
independently for weights and activations, so the setter stores its argument as the weight
threshold and touches nothing else. -/
def QuantizationFactory.SetWeightP99Threshold {F : Type} (qf : QuantizationFactory F)
    (threshold : F) : QuantizationFactory F :=
  { qf with weight_p99_threshold := threshold }

/-- Modelled from the spec: `QuantizationFactory::SetActivationP99Threshold` is defined
outside this file; it stores its argument as the activation threshold and touches nothing
else. -/
def QuantizationFactory.SetActivationP99Threshold {F : Type} (qf : QuantizationFactory F)
    (threshold : F) : QuantizationFactory F :=
  { qf with activation_p99_threshold := threshold }

/-- The threshold the factory holds for the kind of tensor named by `is_weight`. -/
def QuantizationFactory.p99_threshold {F : Type} (qf : QuantizationFactory F)
    (is_weight : Bool) : F :=
  if is_weight then qf.weight_p99_threshold else qf.activation_p99_threshold

/-- The overload `QuantizationFactory::ChooseQuantizationParams(hist, kind, precision,
preserve_sparsity, is_weight)`: the strategies themselves live outside this file and are
read-only functions of the factory and their arguments (spec, section 5), so the member is
a parameter of this type. -/
abbrev HistogramStrategy (F : Type) : Type :=
  QuantizationFactory F → Histogram F → QuantizationKind → Int → Bool → Bool →
    TensorQuantizationParams F

/-- The overload `QuantizationFactory::ChooseQuantizationParams(values, len, is_weight)`:
the sample array, the number of samples as the caller passes it, and the weight flag. -/
abbrev SampleStrategy (F : Type) : Type :=
  QuantizationFactory F → List F → Nat → Bool → TensorQuantizationParams F

/-- Severity of a `LOG(...)` line. -/
inductive Severity where
  | INFO
  | WARNING
  deriving DecidableEq, Repr

/-- One line written through `LOG(severity) << ...`. -/
structure LogEntry where
  severity : Severity
  message : String
  deriving DecidableEq, Repr

/-- The exception a failed `CAFFE_ENFORCE(condition, message...)` throws: the text of the
condition and the concatenated message arguments. -/
structure EnforceNotMet where
  condition : String
  message : String
  deriving DecidableEq, Repr

/-- The net observers this file constructs, each with the arguments of its constructor call.
The `NetBase*` subject is identified by the net's name. -/
inductive NetObserver where
  | HistogramNetObserver (subject : String) (out_file_name : String) (nbins : Int)
      (dump_freq : Int) (mul_nets : Bool)
  | RegisterQuantizationParamsWithHistogramNetObserver (subject : String)
      (histogram_file_name : String) (is_weight : Bool) (qparams_output_file_name : String)
  deriving DecidableEq, Repr

/-- A net of the workspace: its name and the observers attached to it. -/
structure NetBase where
  name : String
  observers : List NetObserver
  deriving DecidableEq, Repr

/-- Element type of a tensor, as far as `tensor.IsType<float>()` tells. -/
inductive ElementType where
  | float
  | nonFloat
  deriving DecidableEq, Repr

/-- A CPU tensor: its element type and its elements; `size()` is the number of elements. -/
structure Tensor (F : Type) where
  dtype : ElementType
  data : List F
  deriving DecidableEq, Repr

/-- Number of elements of the tensor, `tensor.size()`. -/
def Tensor.size {F : Type} (t : Tensor F) : Nat := t.data.length

/-- Answer of `tensor.IsType<float>()`. -/
def Tensor.IsTypeFloat {F : Type} (t : Tensor F) : Bool :=
  match t.dtype with
  | ElementType.float => true
  | ElementType.nonFloat => false

/-- A blob: either a CPU tensor, for which `BlobIsTensorType(blob, CPU)` holds and
`Get<Tensor>()` yields the tensor, or anything else (a tensor on another device, a
non-tensor object), for which `BlobIsTensorType(blob, CPU)` is false. -/
inductive Blob (F : Type) where
  | cpuTensor (tensor : Tensor F)
  | other
  deriving DecidableEq, Repr

/-- A workspace: blobs and nets, each looked up by name. -/
structure Workspace (F : Type) where
  blobs : List (String × Blob F)
  nets : List (String × NetBase)
  deriving DecidableEq, Repr

/-- The lookup `Workspace::GetBlob(name)`: the blob, or null (`none`). -/
def Workspace.GetBlob {F : Type} (ws : Workspace F) (name : String) : Option (Blob F) :=
  ws.blobs.lookup name

/-- The lookup `Workspace::GetNet(name)`: the net, or null (`none`). -/
def Workspace.GetNet {F : Type} (ws : Workspace F) (name : String) : Option NetBase :=
  ws.nets.lookup name

/-- The workspace after the net registered under `name` was mutated into `net` through the
pointer `GetNet` returned. -/
def Workspace.setNet {F : Type} (ws : Workspace F) (name : String) (net : NetBase) :
    Workspace F :=
  { ws with nets := ws.nets.map (fun p => if p.1 = name then (p.1, net) else p) }

/-- The implicit conversion of a C++ `int` to `bool`: true exactly for a nonzero value. -/
def int_to_bool (i : Int) : Bool := decide (i ≠ 0)

/-- The member `Observable<NetBase>::AttachObserver`, defined outside this file: given the
net and the observer it returns the net afterwards and the pointer to the attached observer,
which may be null (`none`). -/
abbrev AttachObserverFn : Type := NetBase → NetObserver → NetBase × Option NetObserver

/-- The state of the process the binding runs in: the workspace
`caffe2::python::GetCurrentWorkspace()` returns (null when there is none), the instance
`QuantizationFactory::GetDefaultInstance()` returns, and the log written so far. -/
structure Process (F : Type) where
  current_workspace : Option (Workspace F)
  default_qfactory : QuantizationFactory F
  log : List LogEntry
  deriving DecidableEq, Repr

/-- Append one `LOG(severity)` line. -/
def Process.LOG {F : Type} (s : Process F) (severity : Severity) (message : String) :
    Process F :=
  { s with log := s.log ++ [{ severity := severity, message := message }] }

/-! ## The functions of the module -/

/-- Lines 32-43, `ObserveHistogramOfOutput`: registers a global creator that builds, for the
net it is given, a `HistogramNetObserver` with 2048 bins.  The registry
`AddGlobalNetObserverCreator` belongs to the runtime and is a parameter, acting on the
runtime's state `G`. -/
def ObserveHistogramOfOutput {G : Type}
    (AddGlobalNetObserverCreator : (NetBase → NetObserver) → G → G)
    (out_file_name : String) (dump_freq : Int) (mul_nets : Bool) (g : G) : G :=
  AddGlobalNetObserverCreator
    (fun net => NetObserver.HistogramNetObserver net.name out_file_name 2048 dump_freq mul_nets)
    g

/-- The Python-facing call of `ObserveHistogramOfOutput`: `dump_freq` defaults to `-1` and
`mul_nets` to `false` (lines 41-43); `none` is an omitted argument. -/
def py_ObserveHistogramOfOutput {G : Type}
    (AddGlobalNetObserverCreator : (NetBase → NetObserver) → G → G)
    (out_file_name : String) (dump_freq : Option Int) (mul_nets : Option Bool) (g : G) : G :=
  ObserveHistogramOfOutput AddGlobalNetObserverCreator out_file_name (dump_freq.getD (-1))
    (mul_nets.getD false) g

/-- Lines 45-69, `AddHistogramObserver`.  The two `CAFFE_ENFORCE`s on the workspace and on
the net come first; then the observer is built with 2048 bins and attached, and a null
result of the attachment fails the third `CAFFE_ENFORCE`.  `GetNet` is a lookup, so its
second call (line 57) returns what the first (line 54) did. -/
def AddHistogramObserver {F : Type} (AttachObserver : AttachObserverFn) (s : Process F)
    (net_name : String) (out_file_name : String) (dump_freq : Int) (mul_nets : Bool) :
    Except EnforceNotMet NetObserver × Process F :=
  match s.current_workspace with
  | none => (Except.error { condition := "gWorkspace", message := "" }, s)
  | some gWorkspace =>
    match gWorkspace.GetNet net_name with
    | none =>
      (Except.error { condition := "gWorkspace->GetNet(net_name)",
                      message := "Can't find net " ++ net_name }, s)
    | some net =>
      let attached := AttachObserver net
        (NetObserver.HistogramNetObserver net.name out_file_name 2048 dump_freq mul_nets)
      let s1 : Process F :=
        { s with current_workspace := some (gWorkspace.setNet net_name attached.1) }
      match attached.2 with
      | none => (Except.error { condition := "observer != nullptr", message := "" }, s1)
      | some observer => (Except.ok observer, s1)

/-- The Python-facing call of `AddHistogramObserver`: `dump_freq` defaults to `-1` and
`mul_nets` to `false` (lines 66-69). -/
def py_AddHistogramObserver {F : Type} (AttachObserver : AttachObserverFn) (s : Process F)
    (net_name : String) (out_file_name : String) (dump_freq : Option Int)
    (mul_nets : Option Bool) : Except EnforceNotMet NetObserver × Process F :=
  AddHistogramObserver AttachObserver s net_name out_file_name (dump_freq.getD (-1))
    (mul_nets.getD false)

/-- Lines 71-98, `ChooseQuantizationParams`.  The workspace is enforced; a missing blob, a
blob that is not a CPU tensor and a tensor that is not of type float each log a warning and
fall through to `(1.0, 0)`; a float tensor is handed, whole, to the sample-based overload of
the default factory with the weight flag `true`. -/
def ChooseQuantizationParams {F : Type} [OfScientific F] (QF_ChooseQuantizationParams :
    SampleStrategy F) (s : Process F) (blob_name : String) :
    Except EnforceNotMet (F × Int) × Process F :=
  match s.current_workspace with
  | none => (Except.error { condition := "gWorkspace", message := "" }, s)
  | some gWorkspace =>
    match gWorkspace.GetBlob blob_name with
    | none =>
      (Except.ok (1.0, 0), s.LOG Severity.WARNING ("Can't find blob " ++ blob_name))
    | some Blob.other =>
      (Except.ok (1.0, 0),
        s.LOG Severity.WARNING ("Blob " ++ blob_name ++ " is not a tensor"))
    | some (Blob.cpuTensor tensor) =>
      if tensor.IsTypeFloat then
        let qfactory := s.default_qfactory
        let qparams := QF_ChooseQuantizationParams qfactory tensor.data tensor.size true
        (Except.ok (qparams.scale, qparams.zero_point), s)
      else
        (Except.ok (1.0, 0),
          s.LOG Severity.WARNING ("Blob " ++ blob_name ++ " is not a float tensor"))

/-- Lines 133-158, `AddRegisterQuantizationParamsWithHistogramObserver`: the same three
`CAFFE_ENFORCE`s around the attachment of a
`RegisterQuantizationParamsWithHistogramNetObserver`.  The parameter `is_weight` is an
`int` here and converts to the constructor's flag. -/
def AddRegisterQuantizationParamsWithHistogramObserver {F : Type}
    (AttachObserver : AttachObserverFn) (s : Process F) (net_name : String)
    (histogram_file_name : String) (is_weight : Int) (qparams_output_file_name : String) :
    Except EnforceNotMet NetObserver × Process F :=
  match s.current_workspace with
  | none => (Except.error { condition := "gWorkspace", message := "" }, s)
  | some gWorkspace =>
    match gWorkspace.GetNet net_name with
    | none =>
      (Except.error { condition := "gWorkspace->GetNet(net_name)",
                      message := "Can't find net " ++ net_name }, s)
    | some net =>
      let attached := AttachObserver net
        (NetObserver.RegisterQuantizationParamsWithHistogramNetObserver net.name
          histogram_file_name (int_to_bool is_weight) qparams_output_file_name)
      let s1 : Process F :=
        { s with current_workspace := some (gWorkspace.setNet net_name attached.1) }
      match attached.2 with
      | none => (Except.error { condition := "observer != nullptr", message := "" }, s1)
      | some observer => (Except.ok observer, s1)

/-- Lines 211-225: the quantization kind named by the scheme string.  It starts as
`MIN_MAX_QUANTIZATION`; each `compare(...) == 0` is an equality of strings; the final
`else` only writes a log line. -/
def select_quant_kind {F : Type} (s : Process F) (quant_scheme : String) :
    QuantizationKind × Process F :=
  if quant_scheme = "L2_MIN_QUANTIZATION" then
    (QuantizationKind.L2_MIN_QUANTIZATION, s)
  else if quant_scheme = "L2_MIN_QUANTIZATION_APPROX" then
    (QuantizationKind.L2_MIN_QUANTIZATION_APPROX, s)
  else if quant_scheme = "KL_MIN_QUANTIZATION" then
    (QuantizationKind.KL_MIN_QUANTIZATION, s)
  else if quant_scheme = "P99_QUANTIZATION" then
    (QuantizationKind.P99_QUANTIZATION, s)
  else if quant_scheme = "L1_MIN_QUANTIZATION" then
    (QuantizationKind.L1_MIN_QUANTIZATION, s)
  else
    (QuantizationKind.MIN_MAX_QUANTIZATION,
      s.LOG Severity.INFO "Using DNNLOWP default MIN_MAX_QUANTIZATION")

/-- Lines 199-235, `ChooseStaticQuantizationParams`: build the histogram, select the kind,
store the threshold in the default factory under the kind of tensor `is_weight` names, and
return what the factory chooses.  The result comes with the process state afterwards. -/
def ChooseStaticQuantizationParams {F : Type}
    (QF_ChooseQuantizationParams : HistogramStrategy F) (s : Process F)
    (min : F) (max : F) (bins : List Nat) (preserve_sparsity : Bool) (precision : Int)
    (quant_scheme : String) (p99_threshold : F) (is_weight : Bool) :
    TensorQuantizationParams F × Process F :=
  let hist : Histogram F := { min := min, max := max, bins := bins }
  let selected := select_quant_kind s quant_scheme
  let quant_kind := selected.1
  let s1 := selected.2
  let qfactory :=
    if is_weight then s1.default_qfactory.SetWeightP99Threshold p99_threshold
    else s1.default_qfactory.SetActivationP99Threshold p99_threshold
  (QF_ChooseQuantizationParams qfactory hist quant_kind precision preserve_sparsity is_weight,
    { s1 with default_qfactory := qfactory })

/-- The Python-facing call of `ChooseStaticQuantizationParams` with the defaults of lines
236-243: `preserve_sparsity = true`, `precision = 8`, `quant_scheme = "min_max"`,
`p99_threshold = 0.99`, `is_weight = false`; `none` is an omitted argument. -/
def py_ChooseStaticQuantizationParams {F : Type} [OfScientific F]
    (QF_ChooseQuantizationParams : HistogramStrategy F) (s : Process F)
    (min : F) (max : F) (bins : List Nat) (preserve_sparsity : Option Bool)
    (precision : Option Int) (quant_scheme : Option String) (p99_threshold : Option F)
    (is_weight : Option Bool) : TensorQuantizationParams F × Process F :=
  ChooseStaticQuantizationParams QF_ChooseQuantizationParams s min max bins
    (preserve_sparsity.getD true) (precision.getD 8) (quant_scheme.getD "min_max")
    (p99_threshold.getD 0.99) (is_weight.getD false)

/-! ## Names and fixtures used in the statements -/

/-- The five scheme names the dispatch of lines 213-222 compares the scheme string with. -/
def recognised_scheme_names : List String :=
  ["L2_MIN_QUANTIZATION", "L2_MIN_QUANTIZATION_APPROX", "KL_MIN_QUANTIZATION",
   "P99_QUANTIZATION", "L1_MIN_QUANTIZATION"]

/-- The factory the binding leaves behind in `ChooseStaticQuantizationParams`, and hands to
the strategy: the threshold stored under the kind of tensor `is_weight` names (lines
228-232). -/
def factory_with_threshold {F : Type} (qf : QuantizationFactory F) (p99_threshold : F)
    (is_weight : Bool) : QuantizationFactory F :=
  if is_weight then qf.SetWeightP99Threshold p99_threshold
  else qf.SetActivationP99Threshold p99_threshold

/-- A concrete strategy for the concrete instances, standing in for the factory's: it answers
with the threshold the factory holds for the requested kind of tensor as scale, the number
of bins as zero point and the requested precision. -/
def example_strategy : HistogramStrategy ℚ :=
  fun qf hist _ precision _ is_weight =>
    { scale := qf.p99_threshold is_weight,
      zero_point := hist.bins.length,
      precision := precision }

/-- A concrete process for the concrete instances: no workspace, a factory with thresholds
`1/2` (weights) and `1/4` (activations), an empty log. -/
def example_process : Process ℚ :=
  { current_workspace := none,
    default_qfactory :=
      { selected_strategy := QuantizationKind.MIN_MAX_QUANTIZATION,
        weight_p99_threshold := 1 / 2,
        activation_p99_threshold := 1 / 4 },
    log := [] }

/-- A concrete sample-based strategy for the concrete instances: the scale is the weight
threshold of the factory when the weight flag is set (the activation threshold otherwise),
the zero point is the number of samples it was told to read. -/
def example_sample_strategy : SampleStrategy ℚ :=
  fun qf _ len is_weight =>
    { scale := qf.p99_threshold is_weight, zero_point := len, precision := 8 }

/-- A concrete workspace for the concrete instances: a float tensor `"w"` of three elements, a
tensor `"idx"` that is not of type float, a blob `"gpu"` that is not a CPU tensor, and one
net `"net1"` without observers. -/
def example_workspace : Workspace ℚ :=
  { blobs :=
      [("w", Blob.cpuTensor { dtype := ElementType.float, data := [1, 2, 3] }),
       ("idx", Blob.cpuTensor { dtype := ElementType.nonFloat, data := [7] }),
       ("gpu", Blob.other)],
    nets := [("net1", { name := "net1", observers := [] })] }

/-- The concrete process with `example_workspace` as its current workspace. -/
def example_process_ws : Process ℚ :=
  { example_process with current_workspace := some example_workspace }

/-- A concrete `AttachObserver` for the concrete instances: it appends the observer to the net's
observers and returns a pointer to it. -/
def example_attach : AttachObserverFn :=
  fun net observer => ({ net with observers := net.observers ++ [observer] }, some observer)

/-- A concrete `AttachObserver` that attaches nothing and returns null. -/
def example_attach_null : AttachObserverFn :=
  fun net _ => (net, none)

/-! ## Shared lemmas -/

theorem select_quant_kind_factory {F : Type} (s : Process F) (quant_scheme : String) :
    (select_quant_kind s quant_scheme).2.default_qfactory = s.default_qfactory := by
  unfold select_quant_kind
  repeat' split
  all_goals rfl

theorem select_quant_kind_unrecognised {F : Type} (s : Process F) (quant_scheme : String)
    (h : quant_scheme ∉ recognised_scheme_names) :
    select_quant_kind s quant_scheme =
      (QuantizationKind.MIN_MAX_QUANTIZATION,
        s.LOG Severity.INFO "Using DNNLOWP default MIN_MAX_QUANTIZATION") := by
  simp only [recognised_scheme_names, List.mem_cons, List.mem_singleton, List.not_mem_nil,
    or_false, not_or] at h
  obtain ⟨h1, h2, h3, h4, h5⟩ := h
  simp [select_quant_kind, h1, h2, h3, h4, h5]

theorem ChooseStaticQuantizationParams_result {F : Type}
    (QF_ChooseQuantizationParams : HistogramStrategy F) (s : Process F)
    (min : F) (max : F) (bins : List Nat) (preserve_sparsity : Bool) (precision : Int)
    (quant_scheme : String) (p99_threshold : F) (is_weight : Bool) :
    (ChooseStaticQuantizationParams QF_ChooseQuantizationParams s min max bins
        preserve_sparsity precision quant_scheme p99_threshold is_weight).1 =
      QF_ChooseQuantizationParams
        (factory_with_threshold s.default_qfactory p99_threshold is_weight)
        { min := min, max := max, bins := bins } (select_quant_kind s quant_scheme).1
        precision preserve_sparsity is_weight := by
  simp only [ChooseStaticQuantizationParams, factory_with_threshold,
    select_quant_kind_factory]

theorem ChooseStaticQuantizationParams_factory {F : Type}
    (QF_ChooseQuantizationParams : HistogramStrategy F) (s : Process F)
    (min : F) (max : F) (bins : List Nat) (preserve_sparsity : Bool) (precision : Int)
    (quant_scheme : String) (p99_threshold : F) (is_weight : Bool) :
    (ChooseStaticQuantizationParams QF_ChooseQuantizationParams s min max bins
        preserve_sparsity precision quant_scheme p99_threshold is_weight).2.default_qfactory =
      factory_with_threshold s.default_qfactory p99_threshold is_weight := by
  simp only [ChooseStaticQuantizationParams, factory_with_threshold,
    select_quant_kind_factory]

theorem select_quant_kind_kind {F : Type} (s : Process F) (s' : Process F)
    (quant_scheme : String) :
    (select_quant_kind s quant_scheme).1 = (select_quant_kind s' quant_scheme).1 := by
  unfold select_quant_kind
  repeat' split
  all_goals rfl

theorem factory_with_threshold_p99 {F : Type} (qf : QuantizationFactory F) (t : F)
    (is_weight : Bool) :
    (factory_with_threshold qf t is_weight).p99_threshold is_weight = t := by
  cases is_weight <;> rfl

theorem example_strategy_reads_requested_threshold
    (qf : QuantizationFactory ℚ) (qf' : QuantizationFactory ℚ) (hist : Histogram ℚ)
    (kind : QuantizationKind) (precision : Int) (preserve_sparsity : Bool) (is_weight : Bool)
    (h : qf.p99_threshold is_weight = qf'.p99_threshold is_weight) :
    example_strategy qf hist kind precision preserve_sparsity is_weight =
      example_strategy qf' hist kind precision preserve_sparsity is_weight := by
  simp [example_strategy, h]

/-! ## The claims -/

/-- C1: for every scheme string that is not one of the five recognised names,
`ChooseStaticQuantizationParams` returns (it is a total function) exactly what the call with
the same other arguments and the scheme `"min_max"` returns, result and process state
alike; both select `MIN_MAX_QUANTIZATION` and hand the factory's strategy identical
arguments. -/
theorem C1_unknown_scheme_is_min_max {F : Type}
    (QF_ChooseQuantizationParams : HistogramStrategy F) (s : Process F)
    (min : F) (max : F) (bins : List Nat) (preserve_sparsity : Bool) (precision : Int)
    (quant_scheme : String) (p99_threshold : F) (is_weight : Bool)
    (h : quant_scheme ∉ recognised_scheme_names) :
    ChooseStaticQuantizationParams QF_ChooseQuantizationParams s min max bins
        preserve_sparsity precision quant_scheme p99_threshold is_weight =
      ChooseStaticQuantizationParams QF_ChooseQuantizationParams s min max bins
        preserve_sparsity precision "min_max" p99_threshold is_weight ∧
    (select_quant_kind s quant_scheme).1 = QuantizationKind.MIN_MAX_QUANTIZATION ∧
    (select_quant_kind s "min_max").1 = QuantizationKind.MIN_MAX_QUANTIZATION ∧
    (ChooseStaticQuantizationParams QF_ChooseQuantizationParams s min max bins
        preserve_sparsity precision quant_scheme p99_threshold is_weight).1 =
      QF_ChooseQuantizationParams
        (factory_with_threshold s.default_qfactory p99_threshold is_weight)
        { min := min, max := max, bins := bins } QuantizationKind.MIN_MAX_QUANTIZATION
        precision preserve_sparsity is_weight := by
  have hmm : "min_max" ∉ recognised_scheme_names := by decide
  have e1 := select_quant_kind_unrecognised s quant_scheme h
  have e2 := select_quant_kind_unrecognised s "min_max" hmm
  refine ⟨?_, ?_, ?_, ?_⟩
  · simp only [ChooseStaticQuantizationParams, e1, e2]
  · rw [e1]
  · rw [e2]
  · rw [ChooseStaticQuantizationParams_result, e1]

/-- C1, at a concrete input: the scheme `"bogus"` gives what `"min_max"` gives. -/
theorem C1_unknown_scheme_is_min_max_witness :
    "bogus" ∉ recognised_scheme_names ∧
    ChooseStaticQuantizationParams example_strategy example_process 0 1 [3, 5] true 8
        "bogus" (99 / 100) false =
      ChooseStaticQuantizationParams example_strategy example_process 0 1 [3, 5] true 8
        "min_max" (99 / 100) false :=
  ⟨by decide,
   (C1_unknown_scheme_is_min_max example_strategy example_process 0 1 [3, 5] true 8
      "bogus" (99 / 100) false (by decide)).1⟩

/-- C2: `ChooseStaticQuantizationParams` hands the factory the kind the scheme string names.
Each of the five names selects the kind of the same name; the comparison is an exact
equality of strings, so the selected kind is `MIN_MAX_QUANTIZATION` if and only if the
string is none of the five names (a name in lower case, a name with a trailing blank and a
proper beginning of a name all fall to `MIN_MAX_QUANTIZATION`); and the five names select
five distinct kinds. -/
theorem C2_scheme_routing {F : Type}
    (QF_ChooseQuantizationParams : HistogramStrategy F) (s : Process F)
    (min : F) (max : F) (bins : List Nat) (preserve_sparsity : Bool) (precision : Int)
    (quant_scheme : String) (p99_threshold : F) (is_weight : Bool) :
    (ChooseStaticQuantizationParams QF_ChooseQuantizationParams s min max bins
        preserve_sparsity precision quant_scheme p99_threshold is_weight).1 =
      QF_ChooseQuantizationParams
        (factory_with_threshold s.default_qfactory p99_threshold is_weight)
        { min := min, max := max, bins := bins } (select_quant_kind s quant_scheme).1
        precision preserve_sparsity is_weight ∧
    (select_quant_kind s "L2_MIN_QUANTIZATION").1 = QuantizationKind.L2_MIN_QUANTIZATION ∧
    (select_quant_kind s "L2_MIN_QUANTIZATION_APPROX").1 =
      QuantizationKind.L2_MIN_QUANTIZATION_APPROX ∧
    (select_quant_kind s "KL_MIN_QUANTIZATION").1 = QuantizationKind.KL_MIN_QUANTIZATION ∧
    (select_quant_kind s "P99_QUANTIZATION").1 = QuantizationKind.P99_QUANTIZATION ∧
    (select_quant_kind s "L1_MIN_QUANTIZATION").1 = QuantizationKind.L1_MIN_QUANTIZATION ∧
    ((select_quant_kind s quant_scheme).1 = QuantizationKind.MIN_MAX_QUANTIZATION ↔
      quant_scheme ∉ recognised_scheme_names) ∧
    (recognised_scheme_names.map (fun name => (select_quant_kind s name).1)).Nodup ∧
    (select_quant_kind s "p99_quantization").1 = QuantizationKind.MIN_MAX_QUANTIZATION ∧
    (select_quant_kind s "P99_QUANTIZATION ").1 = QuantizationKind.MIN_MAX_QUANTIZATION ∧
    (select_quant_kind s "L2_MIN").1 = QuantizationKind.MIN_MAX_QUANTIZATION := by
  refine ⟨ChooseStaticQuantizationParams_result _ _ _ _ _ _ _ _ _ _, ?_, ?_, ?_, ?_, ?_,
    ?_, ?_, ?_, ?_, ?_⟩
  · simp [select_quant_kind]
  · simp [select_quant_kind]
  · simp [select_quant_kind]
  · simp [select_quant_kind]
  · simp [select_quant_kind]
  · constructor
    · intro hk hmem
      simp only [recognised_scheme_names, List.mem_cons, List.mem_singleton,
        List.not_mem_nil, or_false] at hmem
      rcases hmem with h | h | h | h | h <;> subst h <;> simp [select_quant_kind] at hk
    · intro h
      rw [select_quant_kind_unrecognised s quant_scheme h]
  · simp [recognised_scheme_names, select_quant_kind]
  · simp [select_quant_kind]
  · simp [select_quant_kind]
  · simp [select_quant_kind]

/-- C3: given a current workspace, `ChooseQuantizationParams` returns a pair for every blob
name (it never raises), and the pair is exactly `(1.0, 0)` whenever the blob is missing, is
not a CPU tensor, or is a tensor not of type float.  In these cases the default factory is
left as it was, and the outcome is the same whatever the factory holds and whatever its
strategy computes: the factory is not consulted. -/
theorem C3_fallback_one_zero {F : Type} [OfScientific F]
    (QF_ChooseQuantizationParams : SampleStrategy F) (s : Process F)
    (gWorkspace : Workspace F) (blob_name : String)
    (h : s.current_workspace = some gWorkspace) :
    (∃ pair, (ChooseQuantizationParams QF_ChooseQuantizationParams s blob_name).1 =
      Except.ok pair) ∧
    ((gWorkspace.GetBlob blob_name = none ∨
      gWorkspace.GetBlob blob_name = some Blob.other ∨
      ∃ tensor, gWorkspace.GetBlob blob_name = some (Blob.cpuTensor tensor) ∧
        tensor.IsTypeFloat = false) →
      (ChooseQuantizationParams QF_ChooseQuantizationParams s blob_name).1 =
        Except.ok (1.0, 0) ∧
      (ChooseQuantizationParams QF_ChooseQuantizationParams s blob_name).2.default_qfactory =
        s.default_qfactory ∧
      ∀ (other_strategy : SampleStrategy F) (other_factory : QuantizationFactory F),
        (ChooseQuantizationParams other_strategy
          { s with default_qfactory := other_factory } blob_name).1 = Except.ok (1.0, 0)) := by
  constructor
  · unfold ChooseQuantizationParams
    rw [h]
    simp only
    split
    · exact ⟨_, rfl⟩
    · exact ⟨_, rfl⟩
    · split
      · exact ⟨_, rfl⟩
      · exact ⟨_, rfl⟩
  · intro hcase
    rcases hcase with hb | hb | ⟨tensor, hb, hf⟩
    · refine ⟨?_, ?_, ?_⟩
      · simp [ChooseQuantizationParams, h, hb]
      · simp [ChooseQuantizationParams, h, hb, Process.LOG]
      · intro _ _
        simp [ChooseQuantizationParams, h, hb]
    · refine ⟨?_, ?_, ?_⟩
      · simp [ChooseQuantizationParams, h, hb]
      · simp [ChooseQuantizationParams, h, hb, Process.LOG]
      · intro _ _
        simp [ChooseQuantizationParams, h, hb]
    · refine ⟨?_, ?_, ?_⟩
      · simp [ChooseQuantizationParams, h, hb, hf]
      · simp [ChooseQuantizationParams, h, hb, hf, Process.LOG]
      · intro _ _
        simp [ChooseQuantizationParams, h, hb, hf]

/-- C3, at a concrete input: the blob `"idx"` of the example workspace is a tensor that is
not of type float, and the answer is `(1.0, 0)`. -/
theorem C3_fallback_one_zero_witness :
    example_process_ws.current_workspace = some example_workspace ∧
    (ChooseQuantizationParams example_sample_strategy example_process_ws "idx").1 =
      Except.ok (1.0, 0) :=
  ⟨rfl,
   ((C3_fallback_one_zero example_sample_strategy example_process_ws example_workspace "idx"
      rfl).2
      (Or.inr (Or.inr ⟨{ dtype := ElementType.nonFloat, data := [7] }, by decide, rfl⟩))).1⟩

/-- C9: given a current workspace in which the blob is a CPU tensor of type float,
`ChooseQuantizationParams` returns the scale and the zero point of what the default
factory's sample-based strategy computes from the whole element array (`tensor.size()`
elements, which is all of them) with the weight flag `true`; the process state, and with it
the tensor, is left as it was. -/
theorem C9_float_tensor_weight_params {F : Type} [OfScientific F]
    (QF_ChooseQuantizationParams : SampleStrategy F) (s : Process F)
    (gWorkspace : Workspace F) (blob_name : String) (tensor : Tensor F)
    (hws : s.current_workspace = some gWorkspace)
    (hblob : gWorkspace.GetBlob blob_name = some (Blob.cpuTensor tensor))
    (hfloat : tensor.IsTypeFloat = true) :
    ChooseQuantizationParams QF_ChooseQuantizationParams s blob_name =
      (Except.ok
        ((QF_ChooseQuantizationParams s.default_qfactory tensor.data tensor.size true).scale,
         (QF_ChooseQuantizationParams s.default_qfactory tensor.data tensor.size
            true).zero_point),
       s) ∧
    tensor.size = tensor.data.length := by
  refine ⟨?_, rfl⟩
  simp [ChooseQuantizationParams, hws, hblob, hfloat]

/-- C9, at a concrete input: the float tensor `"w"` of the example workspace has three
elements and the weight threshold of the example factory is `1/2`. -/
theorem C9_float_tensor_weight_params_witness :
    ChooseQuantizationParams example_sample_strategy example_process_ws "w" =
      (Except.ok (1 / 2, 3), example_process_ws) :=
  (C9_float_tensor_weight_params example_sample_strategy example_process_ws
    example_workspace "w" { dtype := ElementType.float, data := [1, 2, 3] } rfl (by decide)
    rfl).1

/-- C4: `AddHistogramObserver` raises, returning no observer, if and only if there is no
current workspace, or the workspace has no net of the given name, or attaching returns a
null observer.  When the workspace or the net is missing the process state, and so every
net's observers, is unchanged, and the outcome does not depend on `AttachObserver`: nothing
was built or attached.  `AddRegisterQuantizationParamsWithHistogramObserver` fails under the
same conditions, for its own observer. -/
theorem C4_add_observer_failures {F : Type} (AttachObserver : AttachObserverFn)
    (s : Process F) (net_name : String) (out_file_name : String) (dump_freq : Int)
    (mul_nets : Bool) (histogram_file_name : String) (is_weight : Int)
    (qparams_output_file_name : String) :
    ((∃ e, (AddHistogramObserver AttachObserver s net_name out_file_name dump_freq
        mul_nets).1 = Except.error e) ↔
      (s.current_workspace = none ∨
       (∃ ws, s.current_workspace = some ws ∧ ws.GetNet net_name = none) ∨
       (∃ ws net, s.current_workspace = some ws ∧ ws.GetNet net_name = some net ∧
         (AttachObserver net (NetObserver.HistogramNetObserver net.name out_file_name 2048
           dump_freq mul_nets)).2 = none))) ∧
    ((s.current_workspace = none ∨
       (∃ ws, s.current_workspace = some ws ∧ ws.GetNet net_name = none)) →
      (AddHistogramObserver AttachObserver s net_name out_file_name dump_freq mul_nets).2 = s ∧
      ∀ other_attach : AttachObserverFn,
        AddHistogramObserver other_attach s net_name out_file_name dump_freq mul_nets =
          AddHistogramObserver AttachObserver s net_name out_file_name dump_freq mul_nets) ∧
    ((∃ e, (AddRegisterQuantizationParamsWithHistogramObserver AttachObserver s net_name
        histogram_file_name is_weight qparams_output_file_name).1 = Except.error e) ↔
      (s.current_workspace = none ∨
       (∃ ws, s.current_workspace = some ws ∧ ws.GetNet net_name = none) ∨
       (∃ ws net, s.current_workspace = some ws ∧ ws.GetNet net_name = some net ∧
         (AttachObserver net (NetObserver.RegisterQuantizationParamsWithHistogramNetObserver
           net.name histogram_file_name (int_to_bool is_weight)
           qparams_output_file_name)).2 = none))) ∧
    ((s.current_workspace = none ∨
       (∃ ws, s.current_workspace = some ws ∧ ws.GetNet net_name = none)) →
      (AddRegisterQuantizationParamsWithHistogramObserver AttachObserver s net_name
        histogram_file_name is_weight qparams_output_file_name).2 = s ∧
      ∀ other_attach : AttachObserverFn,
        AddRegisterQuantizationParamsWithHistogramObserver other_attach s net_name
            histogram_file_name is_weight qparams_output_file_name =
          AddRegisterQuantizationParamsWithHistogramObserver AttachObserver s net_name
            histogram_file_name is_weight qparams_output_file_name) := by
  refine ⟨?_, ?_, ?_, ?_⟩
  · unfold AddHistogramObserver
    cases hws : s.current_workspace with
    | none => simp
    | some ws =>
      cases hnet : ws.GetNet net_name with
      | none => simp [hnet]
      | some net =>
        simp only [hnet]
        cases hat : (AttachObserver net (NetObserver.HistogramNetObserver net.name
            out_file_name 2048 dump_freq mul_nets)).2 with
        | none => simp [hnet, hat]
        | some observer => simp [hnet, hat]
  · intro hmiss
    unfold AddHistogramObserver
    rcases hmiss with hws | ⟨ws, hws, hnet⟩
    · simp [hws]
    · simp [hws, hnet]
  · unfold AddRegisterQuantizationParamsWithHistogramObserver
    cases hws : s.current_workspace with
    | none => simp
    | some ws =>
      cases hnet : ws.GetNet net_name with
      | none => simp [hnet]
      | some net =>
        simp only [hnet]
        cases hat : (AttachObserver net
            (NetObserver.RegisterQuantizationParamsWithHistogramNetObserver net.name
              histogram_file_name (int_to_bool is_weight) qparams_output_file_name)).2 with
        | none => simp [hnet, hat]
        | some observer => simp [hnet, hat]
  · intro hmiss
    unfold AddRegisterQuantizationParamsWithHistogramObserver
    rcases hmiss with hws | ⟨ws, hws, hnet⟩
    · simp [hws]
    · simp [hws, hnet]

/-- C4, at concrete inputs: in the example workspace the net `"net2"` does not exist, so the
call raises and leaves the process as it was; on `"net1"` it raises exactly when attaching
returns null. -/
theorem C4_add_observer_failures_witness :
    (AddHistogramObserver example_attach example_process_ws "net2" "hist.txt" (-1) false).2 =
      example_process_ws ∧
    (∃ e, (AddHistogramObserver example_attach_null example_process_ws "net1" "hist.txt"
      (-1) false).1 = Except.error e) ∧
    ¬ (∃ e, (AddHistogramObserver example_attach example_process_ws "net1" "hist.txt"
      (-1) false).1 = Except.error e) :=
  ⟨((C4_add_observer_failures example_attach example_process_ws "net2" "hist.txt" (-1) false
      "hist.txt" 0 "").2.1 (Or.inr ⟨example_workspace, rfl, by decide⟩)).1,
   (C4_add_observer_failures example_attach_null example_process_ws "net1" "hist.txt" (-1)
      false "hist.txt" 0 "").1.mpr
      (Or.inr (Or.inr ⟨example_workspace, { name := "net1", observers := [] }, rfl,
        by decide, rfl⟩)),
   fun hfail => by
     have hcases := (C4_add_observer_failures example_attach example_process_ws "net1"
       "hist.txt" (-1) false "hist.txt" 0 "").1.mp hfail
     rcases hcases with h | ⟨ws, h, hnet⟩ | ⟨ws, net, h, hnet, hnull⟩
     · simp [example_process_ws] at h
     · simp only [example_process_ws, Option.some.injEq] at h
       subst h
       revert hnet
       decide
     · simp [example_attach] at hnull⟩

/-- C10: every histogram observer the binding creates has 2048 bins.  The creator that
`ObserveHistogramOfOutput` hands to the global registry builds, for any net, a
`HistogramNetObserver` with bin count 2048 and the caller's file name, dump interval and
merge flag; `AddHistogramObserver`, given the workspace and the net, attaches exactly such
an observer to the net and returns what attaching returns.  An omitted dump interval is
`-1` and an omitted merge flag is `false`, in both functions, and each of the two defaults
independently of the other: a supplied dump interval is passed through when the merge flag
is omitted, and a supplied merge flag when the dump interval is omitted.  (Where a creator
is applied to a net, the registry is the one that keeps the creator it is given.) -/
theorem C10_histogram_observer_2048_bins {F G : Type}
    (AddGlobalNetObserverCreator : (NetBase → NetObserver) → G → G) (g : G)
    (AttachObserver : AttachObserverFn) (s : Process F) (net_name : String)
    (out_file_name : String) (dump_freq : Int) (mul_nets : Bool) :
    ObserveHistogramOfOutput AddGlobalNetObserverCreator out_file_name dump_freq mul_nets g =
      AddGlobalNetObserverCreator
        (fun net =>
          NetObserver.HistogramNetObserver net.name out_file_name 2048 dump_freq mul_nets) g ∧
    (∀ (registered : NetBase → NetObserver) (net : NetBase),
      ObserveHistogramOfOutput (fun creator _ => creator) out_file_name dump_freq mul_nets
          registered net =
        NetObserver.HistogramNetObserver net.name out_file_name 2048 dump_freq mul_nets) ∧
    py_ObserveHistogramOfOutput AddGlobalNetObserverCreator out_file_name none none g =
      ObserveHistogramOfOutput AddGlobalNetObserverCreator out_file_name (-1) false g ∧
    py_ObserveHistogramOfOutput AddGlobalNetObserverCreator out_file_name (some dump_freq)
        (some mul_nets) g =
      ObserveHistogramOfOutput AddGlobalNetObserverCreator out_file_name dump_freq mul_nets
        g ∧
    (∀ (ws : Workspace F) (net : NetBase), s.current_workspace = some ws →
      ws.GetNet net_name = some net →
      AddHistogramObserver AttachObserver s net_name out_file_name dump_freq mul_nets =
        ((match (AttachObserver net (NetObserver.HistogramNetObserver net.name out_file_name
              2048 dump_freq mul_nets)).2 with
          | none => Except.error { condition := "observer != nullptr", message := "" }
          | some observer => Except.ok observer),
         { s with current_workspace := some (ws.setNet net_name
            (AttachObserver net (NetObserver.HistogramNetObserver net.name out_file_name
              2048 dump_freq mul_nets)).1) })) ∧
    py_AddHistogramObserver AttachObserver s net_name out_file_name none none =
      AddHistogramObserver AttachObserver s net_name out_file_name (-1) false ∧
    py_AddHistogramObserver AttachObserver s net_name out_file_name (some dump_freq)
        (some mul_nets) =
      AddHistogramObserver AttachObserver s net_name out_file_name dump_freq mul_nets ∧
    py_ObserveHistogramOfOutput AddGlobalNetObserverCreator out_file_name (some dump_freq)
        none g =
      ObserveHistogramOfOutput AddGlobalNetObserverCreator out_file_name dump_freq false g ∧
    py_ObserveHistogramOfOutput AddGlobalNetObserverCreator out_file_name none
        (some mul_nets) g =
      ObserveHistogramOfOutput AddGlobalNetObserverCreator out_file_name (-1) mul_nets g ∧
    py_AddHistogramObserver AttachObserver s net_name out_file_name (some dump_freq) none =
      AddHistogramObserver AttachObserver s net_name out_file_name dump_freq false ∧
    py_AddHistogramObserver AttachObserver s net_name out_file_name none (some mul_nets) =
      AddHistogramObserver AttachObserver s net_name out_file_name (-1) mul_nets ∧
    (∀ (registered : NetBase → NetObserver) (net : NetBase)
        (dump_freq_arg : Option Int) (mul_nets_arg : Option Bool),
      py_ObserveHistogramOfOutput (fun creator _ => creator) out_file_name dump_freq_arg
          mul_nets_arg registered net =
        NetObserver.HistogramNetObserver net.name out_file_name 2048
          (match dump_freq_arg with
           | some given => given
           | none => -1)
          (match mul_nets_arg with
           | some given => given
           | none => false)) := by
  refine ⟨rfl, fun _ _ => rfl, rfl, rfl, ?_, rfl, rfl, rfl, rfl, rfl, rfl, ?_⟩
  · intro ws net hws hnet
    unfold AddHistogramObserver
    simp only [hws, hnet]
    split <;> rfl
  · intro registered net dump_freq_arg mul_nets_arg
    cases dump_freq_arg <;> cases mul_nets_arg <;> rfl

/-- C10, at a concrete input: attaching through `AddHistogramObserver` with the dump
interval and the merge flag omitted leaves on `"net1"` one observer, with 2048 bins, dump
interval `-1` and the merge flag `false`, and returns it; with the dump interval `7`
supplied and the merge flag omitted the observer returned has dump interval `7`, and with
the merge flag `true` supplied and the dump interval omitted it has the merge flag `true`;
the creator registered with only the dump interval `7` builds, for the net `"net1"`, an
observer with 2048 bins and dump interval `7`. -/
theorem C10_histogram_observer_2048_bins_witness :
    (py_AddHistogramObserver example_attach example_process_ws "net1" "hist.txt" (some 7)
        none).1 =
      Except.ok (NetObserver.HistogramNetObserver "net1" "hist.txt" 2048 7 false) ∧
    (py_AddHistogramObserver example_attach example_process_ws "net1" "hist.txt" none
        (some true)).1 =
      Except.ok (NetObserver.HistogramNetObserver "net1" "hist.txt" 2048 (-1) true) ∧
    py_ObserveHistogramOfOutput (fun creator _ => creator) "hist.txt" (some 7) none
        (fun _ => NetObserver.HistogramNetObserver "" "" 0 0 false)
        { name := "net1", observers := [] } =
      NetObserver.HistogramNetObserver "net1" "hist.txt" 2048 7 false ∧
    py_AddHistogramObserver example_attach example_process_ws "net1" "hist.txt" none none =
      (Except.ok (NetObserver.HistogramNetObserver "net1" "hist.txt" 2048 (-1) false),
       { example_process_ws with
         current_workspace := some
           { example_workspace with
             nets := [("net1",
               { name := "net1",
                 observers :=
                   [NetObserver.HistogramNetObserver "net1" "hist.txt" 2048 (-1) false] })] } }) :=
  ⟨(congrArg Prod.fst
      ((C10_histogram_observer_2048_bins (fun _ (g : Unit) => g) () example_attach
        example_process_ws "net1" "hist.txt" 7 false).2.2.2.2.2.2.2.2.2.1)).trans
      ((congrArg Prod.fst
        ((C10_histogram_observer_2048_bins (fun _ (g : Unit) => g) () example_attach
          example_process_ws "net1" "hist.txt" 7 false).2.2.2.2.1 example_workspace
          { name := "net1", observers := [] } rfl (by decide))).trans rfl),
   (congrArg Prod.fst
      ((C10_histogram_observer_2048_bins (fun _ (g : Unit) => g) () example_attach
        example_process_ws "net1" "hist.txt" (-1) true).2.2.2.2.2.2.2.2.2.2.1)).trans
      ((congrArg Prod.fst
        ((C10_histogram_observer_2048_bins (fun _ (g : Unit) => g) () example_attach
          example_process_ws "net1" "hist.txt" (-1) true).2.2.2.2.1 example_workspace
          { name := "net1", observers := [] } rfl (by decide))).trans rfl),
   (C10_histogram_observer_2048_bins (fun _ (g : Unit) => g) () example_attach
      example_process_ws "net1" "hist.txt" 7 false).2.2.2.2.2.2.2.2.2.2.2
      (fun _ => NetObserver.HistogramNetObserver "" "" 0 0 false)
      { name := "net1", observers := [] } (some 7) none,
   ((C10_histogram_observer_2048_bins (fun _ (g : Unit) => g) () example_attach
      example_process_ws "net1" "hist.txt" (-1) false).2.2.2.2.2.1).trans
    (((C10_histogram_observer_2048_bins (fun _ (g : Unit) => g) () example_attach
      example_process_ws "net1" "hist.txt" (-1) false).2.2.2.2.1 example_workspace
      { name := "net1", observers := [] } rfl (by decide)).trans rfl)⟩

/-- C5: the thresholds for weights and for activations are set independently: the call
applies the weight setter alone when `is_weight` is true and the activation setter alone
otherwise.  A call of
`ChooseStaticQuantizationParams` with `is_weight = true` and threshold `t` leaves the
factory's weight threshold equal to `t` and its activation threshold as it was; a call with
`is_weight = false` leaves the activation threshold equal to `t` and the weight threshold as
it was; this for every scheme and every other argument.  The stored value persists: after a
later call for the other kind of tensor, with any arguments and any threshold `u`, it is
still `t`, next to the `u` the later call stored.  (A later call for the same kind stores
its own threshold, as the first part says of every call.) -/
theorem C5_thresholds_set_independently {F : Type}
    (QF_ChooseQuantizationParams : HistogramStrategy F) (s : Process F)
    (min : F) (max : F) (bins : List Nat) (preserve_sparsity : Bool) (precision : Int)
    (quant_scheme : String) (t : F)
    (min2 : F) (max2 : F) (bins2 : List Nat) (preserve_sparsity2 : Bool) (precision2 : Int)
    (quant_scheme2 : String) (u : F) :
    (ChooseStaticQuantizationParams QF_ChooseQuantizationParams s min max bins
        preserve_sparsity precision quant_scheme t true).2.default_qfactory =
      s.default_qfactory.SetWeightP99Threshold t ∧
    (ChooseStaticQuantizationParams QF_ChooseQuantizationParams s min max bins
        preserve_sparsity precision quant_scheme t false).2.default_qfactory =
      s.default_qfactory.SetActivationP99Threshold t ∧
    ((ChooseStaticQuantizationParams QF_ChooseQuantizationParams s min max bins
        preserve_sparsity precision quant_scheme t true).2.default_qfactory.weight_p99_threshold
        = t ∧
     (ChooseStaticQuantizationParams QF_ChooseQuantizationParams s min max bins
        preserve_sparsity precision quant_scheme t
        true).2.default_qfactory.activation_p99_threshold =
       s.default_qfactory.activation_p99_threshold) ∧
    ((ChooseStaticQuantizationParams QF_ChooseQuantizationParams s min max bins
        preserve_sparsity precision quant_scheme t
        false).2.default_qfactory.activation_p99_threshold = t ∧
     (ChooseStaticQuantizationParams QF_ChooseQuantizationParams s min max bins
        preserve_sparsity precision quant_scheme t false).2.default_qfactory.weight_p99_threshold
        = s.default_qfactory.weight_p99_threshold) ∧
    ((ChooseStaticQuantizationParams QF_ChooseQuantizationParams
        (ChooseStaticQuantizationParams QF_ChooseQuantizationParams s min max bins
          preserve_sparsity precision quant_scheme t true).2
        min2 max2 bins2 preserve_sparsity2 precision2 quant_scheme2 u
        false).2.default_qfactory.weight_p99_threshold = t ∧
     (ChooseStaticQuantizationParams QF_ChooseQuantizationParams
        (ChooseStaticQuantizationParams QF_ChooseQuantizationParams s min max bins
          preserve_sparsity precision quant_scheme t true).2
        min2 max2 bins2 preserve_sparsity2 precision2 quant_scheme2 u
        false).2.default_qfactory.activation_p99_threshold = u) ∧
    ((ChooseStaticQuantizationParams QF_ChooseQuantizationParams
        (ChooseStaticQuantizationParams QF_ChooseQuantizationParams s min max bins
          preserve_sparsity precision quant_scheme t false).2
        min2 max2 bins2 preserve_sparsity2 precision2 quant_scheme2 u
        true).2.default_qfactory.activation_p99_threshold = t ∧
     (ChooseStaticQuantizationParams QF_ChooseQuantizationParams
        (ChooseStaticQuantizationParams QF_ChooseQuantizationParams s min max bins
          preserve_sparsity precision quant_scheme t false).2
        min2 max2 bins2 preserve_sparsity2 precision2 quant_scheme2 u
        true).2.default_qfactory.weight_p99_threshold = u) := by
  simp only [ChooseStaticQuantizationParams_factory]
  refine ⟨rfl, rfl, ⟨rfl, rfl⟩, ⟨rfl, rfl⟩, ⟨rfl, rfl⟩, ⟨rfl, rfl⟩⟩

/-- C5, at a concrete input: from the example process (thresholds `1/2` for weights, `1/4`
for activations) a weight call with threshold `9/10` leaves `9/10` and `1/4`; an activation
call with threshold `1/10` after it leaves `9/10` and `1/10`. -/
theorem C5_thresholds_set_independently_witness :
    ((ChooseStaticQuantizationParams example_strategy example_process 0 1 [3, 5] true 8
        "P99_QUANTIZATION" (9 / 10) true).2.default_qfactory.weight_p99_threshold = 9 / 10 ∧
     (ChooseStaticQuantizationParams example_strategy example_process 0 1 [3, 5] true 8
        "P99_QUANTIZATION" (9 / 10) true).2.default_qfactory.activation_p99_threshold =
       1 / 4) ∧
    ((ChooseStaticQuantizationParams example_strategy
        (ChooseStaticQuantizationParams example_strategy example_process 0 1 [3, 5] true 8
          "P99_QUANTIZATION" (9 / 10) true).2
        0 2 [1] false 4 "bogus" (1 / 10) false).2.default_qfactory.weight_p99_threshold =
       9 / 10 ∧
     (ChooseStaticQuantizationParams example_strategy
        (ChooseStaticQuantizationParams example_strategy example_process 0 1 [3, 5] true 8
          "P99_QUANTIZATION" (9 / 10) true).2
        0 2 [1] false 4 "bogus" (1 / 10) false).2.default_qfactory.activation_p99_threshold =
       1 / 10) :=
  ⟨(C5_thresholds_set_independently example_strategy example_process 0 1 [3, 5] true 8
      "P99_QUANTIZATION" (9 / 10) 0 2 [1] false 4 "bogus" (1 / 10)).2.2.1,
   (C5_thresholds_set_independently example_strategy example_process 0 1 [3, 5] true 8
      "P99_QUANTIZATION" (9 / 10) 0 2 [1] false 4 "bogus" (1 / 10)).2.2.2.2.1⟩

/-- C6, as stated, fails: an earlier call stored the activation threshold `1/2`, which is
then the factory-level default in force; the next call omits the threshold, and the
threshold the strategy reads (the example strategy reports it as the scale) is `0.99`, not
`1/2`. -/
theorem C6_omitted_threshold_counterexample :
    (py_ChooseStaticQuantizationParams example_strategy example_process 0 1 [3, 5] none none
        none (some (1 / 2)) none).2.default_qfactory.p99_threshold false = 1 / 2 ∧
    (py_ChooseStaticQuantizationParams example_strategy
        (py_ChooseStaticQuantizationParams example_strategy example_process 0 1 [3, 5] none
          none none (some (1 / 2)) none).2
        0 1 [3, 5] none none none none none).1.scale = 0.99 ∧
    (py_ChooseStaticQuantizationParams example_strategy
        (py_ChooseStaticQuantizationParams example_strategy example_process 0 1 [3, 5] none
          none none (some (1 / 2)) none).2
        0 1 [3, 5] none none none none none).1.scale ≠
      (py_ChooseStaticQuantizationParams example_strategy example_process 0 1 [3, 5] none none
        none (some (1 / 2)) none).2.default_qfactory.p99_threshold false := by
  simp only [py_ChooseStaticQuantizationParams, ChooseStaticQuantizationParams_factory,
    ChooseStaticQuantizationParams_result, Option.getD_none, Option.getD_some,
    factory_with_threshold_p99, example_strategy]
  norm_num

/-- C6, amended: when the caller omits `percentile_threshold`, the call is the call with the
threshold `0.99`: the factory's threshold for the `is_weight` kind is overwritten with the
constant `0.99` before the strategy runs, and `0.99` is what the strategy is handed and what
the factory holds afterwards, whatever threshold was in force before the call. -/
theorem C6_omitted_threshold_is_constant {F : Type} [OfScientific F]
    (QF_ChooseQuantizationParams : HistogramStrategy F) (s : Process F)
    (min : F) (max : F) (bins : List Nat) (preserve_sparsity : Option Bool)
    (precision : Option Int) (quant_scheme : Option String) (is_weight : Option Bool) :
    py_ChooseStaticQuantizationParams QF_ChooseQuantizationParams s min max bins
        preserve_sparsity precision quant_scheme none is_weight =
      py_ChooseStaticQuantizationParams QF_ChooseQuantizationParams s min max bins
        preserve_sparsity precision quant_scheme (some 0.99) is_weight ∧
    (py_ChooseStaticQuantizationParams QF_ChooseQuantizationParams s min max bins
        preserve_sparsity precision quant_scheme none
        is_weight).2.default_qfactory.p99_threshold (is_weight.getD false) = 0.99 ∧
    (py_ChooseStaticQuantizationParams QF_ChooseQuantizationParams s min max bins
        preserve_sparsity precision quant_scheme none is_weight).1 =
      QF_ChooseQuantizationParams
        (factory_with_threshold s.default_qfactory 0.99 (is_weight.getD false))
        { min := min, max := max, bins := bins }
        (select_quant_kind s (quant_scheme.getD "min_max")).1
        (precision.getD 8) (preserve_sparsity.getD true) (is_weight.getD false) ∧
    (factory_with_threshold s.default_qfactory (0.99 : F)
        (is_weight.getD false)).p99_threshold (is_weight.getD false) = 0.99 := by
  refine ⟨rfl, ?_, ?_, factory_with_threshold_p99 _ _ _⟩
  · simp only [py_ChooseStaticQuantizationParams, ChooseStaticQuantizationParams_factory,
      Option.getD_none, factory_with_threshold_p99]
  · simp only [py_ChooseStaticQuantizationParams, ChooseStaticQuantizationParams_result,
      Option.getD_none]

/-- C7: `ChooseStaticQuantizationParams` called with only `(min, max, bins)` is the call with
`preserve_sparsity = true`, `precision = 8`, `scheme = "min_max"`,
`percentile_threshold = 0.99` and `is_weight = false`.  It selects `MIN_MAX_QUANTIZATION`,
stores `0.99` as the activation threshold and leaves the weight threshold alone, and
returns what the factory chooses for the histogram of `(min, max, bins)` with precision 8,
sparsity preserved and `is_weight` false. -/
theorem C7_defaults {F : Type} [OfScientific F]
    (QF_ChooseQuantizationParams : HistogramStrategy F) (s : Process F)
    (min : F) (max : F) (bins : List Nat) :
    py_ChooseStaticQuantizationParams QF_ChooseQuantizationParams s min max bins none none
        none none none =
      ChooseStaticQuantizationParams QF_ChooseQuantizationParams s min max bins true 8
        "min_max" 0.99 false ∧
    (select_quant_kind s "min_max").1 = QuantizationKind.MIN_MAX_QUANTIZATION ∧
    (py_ChooseStaticQuantizationParams QF_ChooseQuantizationParams s min max bins none none
        none none none).1 =
      QF_ChooseQuantizationParams (s.default_qfactory.SetActivationP99Threshold 0.99)
        { min := min, max := max, bins := bins } QuantizationKind.MIN_MAX_QUANTIZATION 8 true
        false ∧
    (py_ChooseStaticQuantizationParams QF_ChooseQuantizationParams s min max bins none none
        none none none).2.default_qfactory =
      s.default_qfactory.SetActivationP99Threshold 0.99 ∧
    (py_ChooseStaticQuantizationParams QF_ChooseQuantizationParams s min max bins none none
        none none none).2.default_qfactory.activation_p99_threshold = 0.99 ∧
    (py_ChooseStaticQuantizationParams QF_ChooseQuantizationParams s min max bins none none
        none none none).2.default_qfactory.weight_p99_threshold =
      s.default_qfactory.weight_p99_threshold := by
  have hk : (select_quant_kind s "min_max").1 = QuantizationKind.MIN_MAX_QUANTIZATION := by
    rw [select_quant_kind_unrecognised s "min_max" (by decide)]
  refine ⟨rfl, hk, ?_, ?_, ?_, ?_⟩
  · simp only [py_ChooseStaticQuantizationParams, ChooseStaticQuantizationParams_result,
      Option.getD_none, hk]
    rfl
  · simp only [py_ChooseStaticQuantizationParams, ChooseStaticQuantizationParams_factory,
      Option.getD_none]
    rfl
  · simp only [py_ChooseStaticQuantizationParams, ChooseStaticQuantizationParams_factory,
      Option.getD_none]
    rfl
  · simp only [py_ChooseStaticQuantizationParams, ChooseStaticQuantizationParams_factory,
      Option.getD_none]
    rfl

/-- C7, at a concrete input: from the example process (thresholds `1/2` for weights, `1/4`
for activations) the call with only `(0, 1, [3, 5])` hands the strategy the threshold `0.99`
and precision 8, logs the fallback notice, and leaves the thresholds `1/2` and `0.99`. -/
theorem C7_defaults_witness :
    py_ChooseStaticQuantizationParams example_strategy example_process 0 1 [3, 5] none none
        none none none =
      ({ scale := 0.99, zero_point := 2, precision := 8 },
       { current_workspace := none,
         default_qfactory :=
           { selected_strategy := QuantizationKind.MIN_MAX_QUANTIZATION,
             weight_p99_threshold := 1 / 2,
             activation_p99_threshold := 0.99 },
         log := [{ severity := Severity.INFO,
                   message := "Using DNNLOWP default MIN_MAX_QUANTIZATION" }] }) :=
  (C7_defaults example_strategy example_process 0 1 [3, 5]).1.trans rfl

/-- C8: determinism across the factory state.  Assume the factory's strategy is a function
of its arguments and of the threshold the factory holds for the requested kind of tensor.
Then for every argument tuple, `ChooseStaticQuantizationParams` returns the same parameters
from any two process states, whatever the weight and activation thresholds (and anything
else) were before each call: the threshold of the `is_weight` kind is overwritten with the
argument before the strategy runs. -/
theorem C8_deterministic_across_factory_state {F : Type}
    (QF_ChooseQuantizationParams : HistogramStrategy F)
    (hstrategy : ∀ (qf qf' : QuantizationFactory F) (hist : Histogram F)
      (kind : QuantizationKind) (precision : Int) (preserve_sparsity is_weight : Bool),
      qf.p99_threshold is_weight = qf'.p99_threshold is_weight →
      QF_ChooseQuantizationParams qf hist kind precision preserve_sparsity is_weight =
        QF_ChooseQuantizationParams qf' hist kind precision preserve_sparsity is_weight)
    (s : Process F) (s' : Process F)
    (min : F) (max : F) (bins : List Nat) (preserve_sparsity : Bool) (precision : Int)
    (quant_scheme : String) (p99_threshold : F) (is_weight : Bool) :
    (ChooseStaticQuantizationParams QF_ChooseQuantizationParams s min max bins
        preserve_sparsity precision quant_scheme p99_threshold is_weight).1 =
      (ChooseStaticQuantizationParams QF_ChooseQuantizationParams s' min max bins
        preserve_sparsity precision quant_scheme p99_threshold is_weight).1 := by
  rw [ChooseStaticQuantizationParams_result, ChooseStaticQuantizationParams_result,
    select_quant_kind_kind s s' quant_scheme]
  apply hstrategy
  rw [factory_with_threshold_p99, factory_with_threshold_p99]

/-- C8, at a concrete input: the example strategy reads only the threshold of the requested
kind; the same P99 request for a weight tensor returns the same parameters from the example
process and from the process left by an intervening activation call with another
threshold. -/
theorem C8_deterministic_across_factory_state_witness :
    (ChooseStaticQuantizationParams example_strategy example_process 0 1 [3, 5] true 8
        "P99_QUANTIZATION" (9 / 10) true).1 =
      (ChooseStaticQuantizationParams example_strategy
        (ChooseStaticQuantizationParams example_strategy example_process 0 1 [3, 5] false 8
          "L1_MIN_QUANTIZATION" (1 / 10) false).2
        0 1 [3, 5] true 8 "P99_QUANTIZATION" (9 / 10) true).1 :=
  C8_deterministic_across_factory_state example_strategy
    example_strategy_reads_requested_threshold example_process
    (ChooseStaticQuantizationParams example_strategy example_process 0 1 [3, 5] false 8
      "L1_MIN_QUANTIZATION" (1 / 10) false).2
    0 1 [3, 5] true 8 "P99_QUANTIZATION" (9 / 10) true

end DnnlowpPybind
